import Mathlib

/-!
Verification of the `graze` configuration-loading library (`src/lib.rs`).

The library exposes three functions over the filesystem:

* `load_from_path path deserializer` — reads the whole file as UTF-8 text
  (`fs::read_to_string`) and runs the caller's deserializer on the content;
* `load_or_default path deserializer default` — checks `path.exists()`;
  delegates to `load_from_path` when the file exists, otherwise returns the
  caller's default with no filesystem write;
* `load_or_write_default path deserializer serializer default` — as above,
  but when the file is absent it serializes the default and writes the bytes
  to the path (`fs::write`).

Errors are the two-variant enum `ConfigurationError<E>`: `Io` wrapping the
underlying I/O error and `Deserialize(E)` wrapping the deserializer's error.

The embedding models the filesystem as a map from paths to byte contents,
together with maps recording which paths currently fail to read or write
(permission errors, disk full, ...).  Each operation is state-passing: it
returns its result, the filesystem after the call, and the list of
filesystem effects (stat / read / write attempts) it performed, so that
frame properties ("no write occurs") are genuine statements.  Because Rust's
`fs::read_to_string` rejects files whose bytes are not valid UTF-8 with an
`InvalidData` I/O error, the model includes a strict UTF-8 decoder over byte
lists.
-/

/-- Bytes of a file, each in `0..255`. -/
abbrev Bytes := List Nat

/-- Is `b` a UTF-8 continuation byte (`10xxxxxx`)? -/
def isCont (b : Nat) : Bool := 0x80 ≤ b && b < 0xC0

/-- Strict UTF-8 decoding of a byte list into a character list.  Mirrors the
validation performed by Rust's `fs::read_to_string`: rejects stray
continuation bytes, truncated sequences, overlong encodings, surrogate code
points and code points above `0x10FFFF`. -/
def utf8DecodeAux : List Nat → Option (List Char)
  | [] => some []
  | b :: rest =>
    if b < 0x80 then
      (utf8DecodeAux rest).map (fun cs => Char.ofNat b :: cs)
    else if 0xC2 ≤ b && b ≤ 0xDF then
      match rest with
      | b1 :: rest1 =>
        if isCont b1 then
          (utf8DecodeAux rest1).map
            (fun cs => Char.ofNat ((b - 0xC0) * 0x40 + (b1 - 0x80)) :: cs)
        else none
      | [] => none
    else if 0xE0 ≤ b && b ≤ 0xEF then
      match rest with
      | b1 :: b2 :: rest2 =>
        if isCont b1 && isCont b2 then
          let cp := (b - 0xE0) * 0x1000 + (b1 - 0x80) * 0x40 + (b2 - 0x80)
          if 0x800 ≤ cp && (cp < 0xD800 || 0xDFFF < cp) then
            (utf8DecodeAux rest2).map (fun cs => Char.ofNat cp :: cs)
          else none
        else none
      | _ => none
    else if 0xF0 ≤ b && b ≤ 0xF4 then
      match rest with
      | b1 :: b2 :: b3 :: rest3 =>
        if isCont b1 && isCont b2 && isCont b3 then
          let cp := (b - 0xF0) * 0x40000 + (b1 - 0x80) * 0x1000
            + (b2 - 0x80) * 0x40 + (b3 - 0x80)
          if 0x10000 ≤ cp && cp ≤ 0x10FFFF then
            (utf8DecodeAux rest3).map (fun cs => Char.ofNat cp :: cs)
          else none
        else none
      | _ => none
    else none

/-- Decode a byte list to a `String`, or `none` when it is not valid UTF-8. -/
def utf8Decode (bytes : Bytes) : Option String :=
  (utf8DecodeAux bytes).map String.mk

/-- An I/O error, as carried by Rust's `std::io::Error`.  `notFound` is the
kind produced by opening a missing file, `invalidData` the kind produced by
`read_to_string` on non-UTF-8 content; `other code` stands for every
remaining kind (permission denied, disk full, ...). -/
inductive IoError where
  | notFound : IoError
  | invalidData : IoError
  | other : Nat → IoError
deriving DecidableEq, Repr

/-- `ConfigurationError<E>` from `src/lib.rs`: `Io` wraps the underlying
I/O error, `Deserialize` wraps the caller's deserializer error unchanged. -/
inductive ConfigurationError (E : Type) where
  | Io : IoError → ConfigurationError E
  | Deserialize : E → ConfigurationError E
deriving DecidableEq, Repr

/-- The filesystem model: the byte content of each path (or `none` when the
path does not exist), and for each path an optional forced failure of a read
or a write attempt (permission errors, disk full, ...), carried as the
`other` I/O error code. -/
structure FileSystem where
  files : String → Option Bytes
  readFail : String → Option Nat
  writeFail : String → Option Nat

/-- Rust's `Path::exists()` in the model: the path maps to some content. -/
def FileSystem.pathExists (fs : FileSystem) (p : String) : Bool :=
  (fs.files p).isSome

/-- `fs::read_to_string`: fails with `notFound` when the path is absent,
with a forced error when the path currently fails to read, and with
`invalidData` when the content is not valid UTF-8; otherwise returns the
decoded text. -/
def readToString (fs : FileSystem) (p : String) : Except IoError String :=
  match fs.files p with
  | none => .error .notFound
  | some bytes =>
    match fs.readFail p with
    | some code => .error (.other code)
    | none =>
      match utf8Decode bytes with
      | none => .error .invalidData
      | some s => .ok s

/-- `fs::write`: create-or-truncate the file with the given bytes, or fail
with a forced error when the path currently fails to write (leaving the
filesystem unchanged). -/
def fsWrite (fs : FileSystem) (p : String) (data : Bytes) :
    Except IoError FileSystem :=
  match fs.writeFail p with
  | some code => .error (.other code)
  | none =>
    .ok { fs with files := fun q => if q = p then some data else fs.files q }

/-- One filesystem effect performed by an operation: an existence check, a
whole-file read attempt, or a whole-file write attempt. -/
inductive FsEffect where
  | stat : String → FsEffect
  | read : String → FsEffect
  | write : String → Bytes → FsEffect
deriving DecidableEq, Repr

/-- Is the effect a write attempt (to any path)? -/
def FsEffect.isWrite : FsEffect → Bool
  | .write _ _ => true
  | _ => false

/-- The outcome of one library call: the returned `Result`, the filesystem
after the call, and the trace of filesystem effects attempted. -/
structure FsOutcome (E T : Type) where
  result : Except (ConfigurationError E) T
  fs : FileSystem
  trace : List FsEffect

/-- `load_from_path` (`src/lib.rs:97-104`): read the file as text, then run
the deserializer, wrapping a read failure in `Io` and a deserializer error
in `Deserialize`. -/
def load_from_path {E T : Type} (fs : FileSystem) (p : String)
    (deserializer : String → Except E T) : FsOutcome E T :=
  { result :=
      match readToString fs p with
      | .error io => .error (.Io io)
      | .ok content =>
        match deserializer content with
        | .ok t => .ok t
        | .error e => .error (.Deserialize e)
    fs := fs
    trace := [.read p] }

/-- `load_or_default` (`src/lib.rs:121-133`): if the path exists delegate to
`load_from_path`, otherwise return the caller's default; no write occurs. -/
def load_or_default {E T : Type} (fs : FileSystem) (p : String)
    (deserializer : String → Except E T) (default : Unit → T) :
    FsOutcome E T :=
  if fs.pathExists p then
    let o := load_from_path fs p deserializer
    { result := o.result, fs := o.fs, trace := .stat p :: o.trace }
  else
    { result := .ok (default ()), fs := fs, trace := [.stat p] }

/-- `load_or_write_default` (`src/lib.rs:166-189`): if the path exists
delegate to `load_from_path`; otherwise build the default, serialize it,
write the bytes to the path and return the default, propagating a write
failure as `Io`. -/
def load_or_write_default {E T : Type} (fs : FileSystem) (p : String)
    (deserializer : String → Except E T) (serializer : T → Bytes)
    (default : Unit → T) : FsOutcome E T :=
  if fs.pathExists p then
    let o := load_from_path fs p deserializer
    { result := o.result, fs := o.fs, trace := .stat p :: o.trace }
  else
    let data := default ()
    match fsWrite fs p (serializer data) with
    | .error io =>
      { result := .error (.Io io), fs := fs
        trace := [.stat p, .write p (serializer data)] }
    | .ok fs' =>
      { result := .ok data, fs := fs'
        trace := [.stat p, .write p (serializer data)] }

/-- Number of write attempts in an effect trace. -/
def countWrites (tr : List FsEffect) : Nat :=
  (tr.filter FsEffect.isWrite).length

/-- A filesystem with no files and no forced failures. -/
def fsEmpty : FileSystem where
  files := fun _ => none
  readFail := fun _ => none
  writeFail := fun _ => none

/-- A filesystem holding a single file at `p` with content `bytes`. -/
def fsWith (p : String) (bytes : Bytes) : FileSystem where
  files := fun q => if q = p then some bytes else none
  readFail := fun _ => none
  writeFail := fun _ => none

/-- An empty filesystem on which writing to `p` fails with code `code`. -/
def fsWriteDenied (p : String) (code : Nat) : FileSystem where
  files := fun _ => none
  readFail := fun _ => none
  writeFail := fun q => if q = p then some code else none

/-- A concrete path used by the witness theorems. -/
def pathA : String := "Config.toml"

/-- A concrete serializer for `Bool`: the byte of the digit. -/
def serBool : Bool → Bytes := fun b => if b then [49] else [48]

/-- A concrete deserializer matching `serBool`, with `Nat` error type. -/
def deserBool : String → Except Nat Bool := fun s =>
  if s = "1" then .ok true else if s = "0" then .ok false else .error 7

/-- A concrete default producer for `Bool`. -/
def defTrue : Unit → Bool := fun _ => true

/-- C1: for every path and deserializer, `load_from_path` returns `Ok t`
exactly when the file read succeeds with some content on which the
deserializer returns `Ok t`; it returns `Io` wrapping the underlying I/O
error when the file cannot be read, and `Deserialize e` carrying the
deserializer's error unchanged when the deserializer fails. -/
theorem load_from_path_spec {E T : Type} (fs : FileSystem) (p : String)
    (deserializer : String → Except E T) :
    (∀ t : T, (load_from_path fs p deserializer).result = .ok t ↔
      ∃ s, readToString fs p = .ok s ∧ deserializer s = .ok t)
    ∧ (∀ io, readToString fs p = .error io →
      (load_from_path fs p deserializer).result = .error (.Io io))
    ∧ (∀ s e, readToString fs p = .ok s → deserializer s = .error e →
      (load_from_path fs p deserializer).result = .error (.Deserialize e)) := by
  refine ⟨fun t => ?_, fun io hio => ?_, fun s e hs he => ?_⟩
  · constructor
    · intro h
      cases hr : readToString fs p with
      | error io => simp [load_from_path, hr] at h
      | ok s =>
        cases hd : deserializer s with
        | ok t' =>
          have ht : t' = t := by simpa [load_from_path, hr, hd] using h
          exact ⟨s, rfl, by rw [hd, ht]⟩
        | error e => simp [load_from_path, hr, hd] at h
    · rintro ⟨s, hs, hd⟩
      simp [load_from_path, hs, hd]
  · simp [load_from_path, hio]
  · simp [load_from_path, hs, he]

/-- Witness for C1: on an empty filesystem `load_from_path` returns the
wrapped `notFound` I/O error, by the second conjunct of the theorem. -/
theorem load_from_path_spec_witness :
    (load_from_path fsEmpty pathA deserBool).result = .error (.Io .notFound) :=
  (load_from_path_spec fsEmpty pathA deserBool).2.1 .notFound rfl

/-- C9: `load_from_path` on a non-existent path returns an `Io` error value
(specifically the `notFound` error): the embedding is a total function, so
no panic or process termination is possible and a `Result` is always
returned. -/
theorem load_from_path_missing {E T : Type} (fs : FileSystem) (p : String)
    (deserializer : String → Except E T) (hp : fs.files p = none) :
    (load_from_path fs p deserializer).result = .error (.Io .notFound) := by
  simp [load_from_path, readToString, hp]

/-- Witness for C9 at a concrete empty filesystem. -/
theorem load_from_path_missing_witness :
    (load_from_path fsEmpty pathA deserBool).result
      = .error (.Io .notFound) ∧ fsEmpty.files pathA = none :=
  ⟨load_from_path_missing fsEmpty pathA deserBool rfl, rfl⟩

/-- C10: when the file exists but its bytes are not valid UTF-8 (and no
other read failure is forced), `load_from_path` returns the `invalidData`
I/O error and the deserializer is never invoked: the result is the same for
every deserializer, so the deserializer only ever receives decoded UTF-8
text. -/
theorem load_from_path_invalid_utf8 {E T : Type} (fs : FileSystem)
    (p : String) (bytes : Bytes) (hp : fs.files p = some bytes)
    (hr : fs.readFail p = none) (hu : utf8Decode bytes = none) :
    (∀ deserializer : String → Except E T,
      (load_from_path fs p deserializer).result = .error (.Io .invalidData))
    ∧ (∀ d1 d2 : String → Except E T,
      (load_from_path fs p d1).result = (load_from_path fs p d2).result) := by
  have key : ∀ deserializer : String → Except E T,
      (load_from_path fs p deserializer).result
        = .error (.Io .invalidData) := by
    intro deserializer
    simp [load_from_path, readToString, hp, hr, hu]
  exact ⟨key, fun d1 d2 => by rw [key d1, key d2]⟩

/-- Witness for C10: a file holding the lone continuation byte `0x80`. -/
theorem load_from_path_invalid_utf8_witness :
    (load_from_path (fsWith pathA [128]) pathA deserBool).result
      = .error (.Io .invalidData) :=
  (load_from_path_invalid_utf8 (fsWith pathA [128]) pathA [128]
    (by simp [fsWith]) rfl (by decide)).1 deserBool

/-- C2: on a non-existent path (with no forced write failure),
`load_or_write_default` returns `Ok` of the produced default, the file
afterwards exists with content equal to the serializer applied to that
default, other paths are untouched, and the trace is one stat followed by
one write of exactly those bytes. -/
theorem load_or_write_default_creates {E T : Type} (fs : FileSystem)
    (p : String) (deserializer : String → Except E T) (serializer : T → Bytes)
    (default : Unit → T) (hp : fs.files p = none)
    (hw : fs.writeFail p = none) :
    (load_or_write_default fs p deserializer serializer default).result
      = .ok (default ())
    ∧ (load_or_write_default fs p deserializer serializer default).fs.files p
      = some (serializer (default ()))
    ∧ (∀ q, q ≠ p →
      (load_or_write_default fs p deserializer serializer default).fs.files q
        = fs.files q)
    ∧ (load_or_write_default fs p deserializer serializer default).trace
      = [.stat p, .write p (serializer (default ()))] := by
  have hex : fs.pathExists p = false := by
    simp [FileSystem.pathExists, hp]
  refine ⟨?_, ?_, fun q hq => ?_, ?_⟩
  · simp [load_or_write_default, hex, fsWrite, hw]
  · simp [load_or_write_default, hex, fsWrite, hw]
  · simp [load_or_write_default, hex, fsWrite, hw, hq]
  · simp [load_or_write_default, hex, fsWrite, hw]

/-- Witness for C2 on an empty filesystem: the call returns the default
`true` and the file now holds the serialized byte `49`. -/
theorem load_or_write_default_creates_witness :
    (load_or_write_default fsEmpty pathA deserBool serBool defTrue).result
      = .ok true
    ∧ (load_or_write_default fsEmpty pathA deserBool serBool defTrue).fs.files
        pathA = some [49] :=
  have h :=
    load_or_write_default_creates fsEmpty pathA deserBool serBool defTrue
      rfl rfl
  ⟨h.1, h.2.1⟩

/-- C3: on an existing path, `load_or_write_default` leaves the filesystem
(in particular the file's bytes) unchanged, performs no write attempt, and
returns exactly the result of deserializing the existing content via
`load_from_path`. -/
theorem load_or_write_default_existing {E T : Type} (fs : FileSystem)
    (p : String) (deserializer : String → Except E T) (serializer : T → Bytes)
    (default : Unit → T) (hp : fs.pathExists p = true) :
    (load_or_write_default fs p deserializer serializer default).fs = fs
    ∧ (load_or_write_default fs p deserializer serializer default).result
      = (load_from_path fs p deserializer).result
    ∧ ∀ e ∈ (load_or_write_default fs p deserializer serializer default).trace,
      e.isWrite = false := by
  refine ⟨?_, ?_, ?_⟩ <;>
    simp [load_or_write_default, hp, load_from_path, FsEffect.isWrite]

/-- Witness for C3: with the file present and holding the byte `49`
(the text `1`), the call changes nothing and deserializes to `true`. -/
theorem load_or_write_default_existing_witness :
    (load_or_write_default (fsWith pathA [49]) pathA deserBool serBool
      defTrue).fs = fsWith pathA [49]
    ∧ (load_or_write_default (fsWith pathA [49]) pathA deserBool serBool
        defTrue).result
      = (load_from_path (fsWith pathA [49]) pathA deserBool).result :=
  have h :=
    load_or_write_default_existing (fsWith pathA [49]) pathA deserBool serBool
      defTrue (by simp [FileSystem.pathExists, fsWith])
  ⟨h.1, h.2.1⟩

/-- C4: on a non-existent path, `load_or_default` returns `Ok` of the
produced default, the filesystem is returned unchanged (no file created,
no write), and the trace is a single existence check. -/
theorem load_or_default_missing {E T : Type} (fs : FileSystem) (p : String)
    (deserializer : String → Except E T) (default : Unit → T)
    (hp : fs.files p = none) :
    (load_or_default fs p deserializer default).result = .ok (default ())
    ∧ (load_or_default fs p deserializer default).fs = fs
    ∧ (load_or_default fs p deserializer default).trace = [.stat p] := by
  have hex : fs.pathExists p = false := by
    simp [FileSystem.pathExists, hp]
  refine ⟨?_, ?_, ?_⟩ <;> simp [load_or_default, hex]

/-- Witness for C4 on an empty filesystem. -/
theorem load_or_default_missing_witness :
    (load_or_default fsEmpty pathA deserBool defTrue).result = .ok true
    ∧ (load_or_default fsEmpty pathA deserBool defTrue).fs = fsEmpty
    ∧ (load_or_default fsEmpty pathA deserBool defTrue).trace
      = [.stat pathA] :=
  load_or_default_missing fsEmpty pathA deserBool defTrue rfl

/-- C5: on an existing path, `load_or_default` and `load_or_write_default`
return exactly the result of `load_from_path` with the same path and
deserializer; the default producer and the serializer are not invoked on
this branch — the whole outcome is independent of them. -/
theorem exists_branch_delegates {E T : Type} (fs : FileSystem) (p : String)
    (deserializer : String → Except E T) (serializer : T → Bytes)
    (default : Unit → T) (hp : fs.pathExists p = true) :
    (load_or_default fs p deserializer default).result
      = (load_from_path fs p deserializer).result
    ∧ (load_or_write_default fs p deserializer serializer default).result
      = (load_from_path fs p deserializer).result
    ∧ (∀ d1 d2 : Unit → T,
      load_or_default fs p deserializer d1 = load_or_default fs p deserializer d2)
    ∧ (∀ (s1 s2 : T → Bytes) (d1 d2 : Unit → T),
      load_or_write_default fs p deserializer s1 d1
        = load_or_write_default fs p deserializer s2 d2) := by
  refine ⟨?_, ?_, fun d1 d2 => ?_, fun s1 s2 d1 d2 => ?_⟩ <;>
    simp [load_or_default, load_or_write_default, hp]

/-- Witness for C5: with the file present both wrappers agree with
`load_from_path`. -/
theorem exists_branch_delegates_witness :
    (load_or_default (fsWith pathA [49]) pathA deserBool defTrue).result
      = (load_from_path (fsWith pathA [49]) pathA deserBool).result
    ∧ (load_or_write_default (fsWith pathA [49]) pathA deserBool serBool
        defTrue).result
      = (load_from_path (fsWith pathA [49]) pathA deserBool).result :=
  have h :=
    exists_branch_delegates (fsWith pathA [49]) pathA deserBool serBool
      defTrue (by simp [FileSystem.pathExists, fsWith])
  ⟨h.1, h.2.1⟩

/-- C6: on a non-existent path whose write fails, `load_or_write_default`
returns the `Io` error wrapping the write failure (so no `T` is returned:
the constructed default is discarded), the filesystem still has no file at
the path, and exactly one write was attempted — no retry. -/
theorem load_or_write_default_write_fails {E T : Type} (fs : FileSystem)
    (p : String) (deserializer : String → Except E T) (serializer : T → Bytes)
    (default : Unit → T) (code : Nat) (hp : fs.files p = none)
    (hw : fs.writeFail p = some code) :
    (load_or_write_default fs p deserializer serializer default).result
      = .error (.Io (.other code))
    ∧ (load_or_write_default fs p deserializer serializer default).fs = fs
    ∧ countWrites
        (load_or_write_default fs p deserializer serializer default).trace
      = 1 := by
  have hex : fs.pathExists p = false := by
    simp [FileSystem.pathExists, hp]
  refine ⟨?_, ?_, ?_⟩ <;>
    simp [load_or_write_default, hex, fsWrite, hw, countWrites,
      FsEffect.isWrite, List.filter]

/-- Witness for C6 on a filesystem that denies the write with code `13`. -/
theorem load_or_write_default_write_fails_witness :
    (load_or_write_default (fsWriteDenied pathA 13) pathA deserBool serBool
      defTrue).result = .error (.Io (.other 13))
    ∧ (load_or_write_default (fsWriteDenied pathA 13) pathA deserBool serBool
        defTrue).fs = fsWriteDenied pathA 13 :=
  have h :=
    load_or_write_default_write_fails (fsWriteDenied pathA 13) pathA deserBool
      serBool defTrue 13 rfl (by simp [fsWriteDenied])
  ⟨h.1, h.2.1⟩

/-- C7: round-trip.  When the deserializer is a left inverse of the
serializer (through UTF-8 decoding of the written bytes), writing the
default `v` with `load_or_write_default` to a non-existent, writable path
returns `Ok v`, and a subsequent `load_from_path` on the resulting
filesystem yields `Ok` of a value equal to `v`. -/
theorem write_then_read_roundtrip {E T : Type} (fs : FileSystem) (p : String)
    (deserializer : String → Except E T) (serializer : T → Bytes)
    (default : Unit → T) (hp : fs.files p = none)
    (hw : fs.writeFail p = none) (hr : fs.readFail p = none)
    (hinv : ∀ t, ∃ s,
      utf8Decode (serializer t) = some s ∧ deserializer s = .ok t) :
    (load_or_write_default fs p deserializer serializer default).result
      = .ok (default ())
    ∧ (load_from_path
        (load_or_write_default fs p deserializer serializer default).fs
        p deserializer).result = .ok (default ()) := by
  have hex : fs.pathExists p = false := by
    simp [FileSystem.pathExists, hp]
  obtain ⟨s, hds, hde⟩ := hinv (default ())
  constructor
  · simp [load_or_write_default, hex, fsWrite, hw]
  · simp [load_or_write_default, hex, fsWrite, hw, load_from_path,
      readToString, hr, hds, hde]

/-- Witness for C7: the default `true` serializes to the byte `49`, decodes
back to the text `1`, and deserializes to `true` again. -/
theorem write_then_read_roundtrip_witness :
    (load_or_write_default fsEmpty pathA deserBool serBool defTrue).result
      = .ok true
    ∧ (load_from_path
        (load_or_write_default fsEmpty pathA deserBool serBool defTrue).fs
        pathA deserBool).result = .ok true :=
  write_then_read_roundtrip fsEmpty pathA deserBool serBool defTrue rfl rfl
    rfl
    (fun t => by
      cases t
      · exact ⟨ "0", by decide, rfl⟩
      · exact ⟨ "1", by decide, rfl⟩)

/-- C8: idempotence.  On a fresh, readable and writable path with a matching
serializer/deserializer pair, two successive calls of
`load_or_write_default` both return `Ok` of the same default value, the
second call leaves the filesystem of the first call unchanged (it takes the
exists branch), and the file is written exactly once: one write attempt in
the first trace, none in the second. -/
theorem load_or_write_default_idempotent {E T : Type} (fs : FileSystem)
    (p : String) (deserializer : String → Except E T) (serializer : T → Bytes)
    (default : Unit → T) (hp : fs.files p = none)
    (hw : fs.writeFail p = none) (hr : fs.readFail p = none)
    (hinv : ∀ t, ∃ s,
      utf8Decode (serializer t) = some s ∧ deserializer s = .ok t) :
    (load_or_write_default fs p deserializer serializer default).result
      = .ok (default ())
    ∧ (load_or_write_default
        (load_or_write_default fs p deserializer serializer default).fs
        p deserializer serializer default).result = .ok (default ())
    ∧ (load_or_write_default
        (load_or_write_default fs p deserializer serializer default).fs
        p deserializer serializer default).fs
      = (load_or_write_default fs p deserializer serializer default).fs
    ∧ (load_or_write_default fs p deserializer serializer default).fs.pathExists
        p = true
    ∧ countWrites
        (load_or_write_default fs p deserializer serializer default).trace = 1
    ∧ countWrites
        (load_or_write_default
          (load_or_write_default fs p deserializer serializer default).fs
          p deserializer serializer default).trace = 0 := by
  have hex : fs.pathExists p = false := by
    simp [FileSystem.pathExists, hp]
  obtain ⟨s, hds, hde⟩ := hinv (default ())
  have h1fs :
      (load_or_write_default fs p deserializer serializer default).fs.files p
        = some (serializer (default ())) := by
    simp [load_or_write_default, hex, fsWrite, hw]
  have h1rf :
      (load_or_write_default fs p deserializer serializer
        default).fs.readFail p = none := by
    simp [load_or_write_default, hex, fsWrite, hw, hr]
  have h1ex :
      (load_or_write_default fs p deserializer serializer default).fs.pathExists
        p = true := by
    simp [FileSystem.pathExists, h1fs]
  have hsecond : ∀ fs1 : FileSystem,
      fs1.files p = some (serializer (default ())) → fs1.readFail p = none →
      (load_or_write_default fs1 p deserializer serializer default).result
        = .ok (default ())
      ∧ (load_or_write_default fs1 p deserializer serializer default).fs = fs1
      ∧ countWrites
          (load_or_write_default fs1 p deserializer serializer default).trace
        = 0 := by
    intro fs1 hf hrf
    have hex1 : fs1.pathExists p = true := by
      simp [FileSystem.pathExists, hf]
    refine ⟨?_, ?_, ?_⟩
    · simp [load_or_write_default, hex1, load_from_path, readToString, hf,
        hrf, hds, hde]
    · simp [load_or_write_default, hex1, load_from_path]
    · simp [load_or_write_default, hex1, load_from_path, countWrites,
        FsEffect.isWrite, List.filter]
  obtain ⟨h2res, h2fs, h2tr⟩ := hsecond _ h1fs h1rf
  refine ⟨?_, h2res, h2fs, h1ex, ?_, h2tr⟩
  · simp [load_or_write_default, hex, fsWrite, hw]
  · simp [load_or_write_default, hex, fsWrite, hw, countWrites,
      FsEffect.isWrite, List.filter]

/-- Witness for C8 at the concrete `Bool` pair: both calls return
`Ok true`, one write in the first trace, none in the second. -/
theorem load_or_write_default_idempotent_witness :
    (load_or_write_default fsEmpty pathA deserBool serBool defTrue).result
      = .ok true
    ∧ (load_or_write_default
        (load_or_write_default fsEmpty pathA deserBool serBool defTrue).fs
        pathA deserBool serBool defTrue).result = .ok true
    ∧ countWrites
        (load_or_write_default fsEmpty pathA deserBool serBool
          defTrue).trace = 1
    ∧ countWrites
        (load_or_write_default
          (load_or_write_default fsEmpty pathA deserBool serBool defTrue).fs
          pathA deserBool serBool defTrue).trace = 0 :=
  have h :=
    load_or_write_default_idempotent fsEmpty pathA deserBool serBool defTrue
      rfl rfl rfl
      (fun t => by
        cases t
        · exact ⟨ "0", by decide, rfl⟩
        · exact ⟨ "1", by decide, rfl⟩)
  ⟨h.1, h.2.1, h.2.2.2.2.1, h.2.2.2.2.2⟩
